import Mathlib

/-!
Verification model of the Hayward pool-heater bus protocol engine
(`esphome/components/hwp`).  The definitions below are shallow embeddings of
the C++ structures and member functions of the repository: `packet_data`,
`short_frame_t` / `long_frame_t` checksums (Schema.h), the `Decoder` frame
state machine (Decoder.cpp, Bus.cpp), the specialized-frame payload layouts
(FrameConditions2.h, FrameConf1.h, FrameConf2.h), the singleton
stage/transfer/is_changed lifecycle of the `CLASS_DEFAULT_IMPL` macro
(base_frame.h, base_frame.cpp), and the transmit-throttle guard (Bus.h).

Bytes are modelled as `Nat` values; every place where the C++ `uint8_t`
arithmetic wraps is made explicit with `% 256`.  Temperatures decoded by the
firmware are small multiples of 0.5 °C, on which the C++ `float` arithmetic
is exact, so they are modelled by `Rat` without loss.
-/

namespace Hwp

/-- Schema.h: `frame_data_length = 12`, the size of a long frame and of the
raw packet buffer. -/
def frame_data_length : Nat := 12

/-- Schema.h: `frame_data_length_short = 9`, the size of a short frame. -/
def frame_data_length_short : Nat := 9

/-- Bitwise complement of a byte: C++ `~b` on `uint8_t` (HPUtils.h `inverse`). -/
def invByte (b : Nat) : Nat := 255 - b % 256

/-- Schema.h `packet_data`: a 12-byte raw buffer plus its live length.
The `data` list always has length 12 in well-formed states (the C++ member
is a fixed `uint8_t data[12]` array). -/
structure packet_data where
  data : List Nat
  data_len : Nat
  deriving Repr, DecidableEq

namespace packet_data

/-- Read byte `i` of the buffer (out-of-range reads yield 0; the C++ code
only reads in range under the guards modelled below). -/
def byteAt (p : packet_data) (i : Nat) : Nat := p.data.getD i 0

/-- Schema.h `packet_data::get_type`: byte 0 is the type id. -/
def get_type (p : packet_data) : Nat := p.byteAt 0

/-- Schema.h `packet_data::get_checksum_pos`:
`data_len >= 12 ? 11 : data_len - 1`, with the subtraction performed on
`uint8_t` (so `data_len = 0` wraps to 255; that value is never used to read
because `is_checksum_valid` rejects such lengths first). -/
def get_checksum_pos (p : packet_data) : Nat :=
  if p.data_len ≥ frame_data_length then frame_data_length - 1
  else (p.data_len + 255) % 256

/-- Sum of `data[lo]`, …, `data[hi-1]`. -/
def sumRange (d : List Nat) (lo hi : Nat) : Nat :=
  (((List.range hi).drop lo).map (fun i => d.getD i 0)).sum

/-- Schema.h `short_frame_t::calculate_checksum(length)`: sum of bytes
`[1, length-1)` modulo 256 (byte 0 is skipped). -/
def short_frame_calculate_checksum (p : packet_data) (length : Nat) : Nat :=
  sumRange p.data 1 (length - 1) % 256

/-- Schema.h `long_frame_t::calculate_checksum(length)`: sum of bytes
`[0, length-1)` modulo 256. -/
def long_frame_calculate_checksum (p : packet_data) (length : Nat) : Nat :=
  sumRange p.data 0 (length - 1) % 256

/-- Schema.h `packet_data::is_short_frame`. -/
def is_short_frame (p : packet_data) : Bool :=
  p.data_len == frame_data_length_short

/-- Schema.h `packet_data::calculate_checksum`: dispatch to the short- or
long-frame sum on the live length. -/
def calculate_checksum (p : packet_data) : Nat :=
  if p.is_short_frame then p.short_frame_calculate_checksum p.data_len
  else p.long_frame_calculate_checksum p.data_len

/-- Schema.h `packet_data::bus_checksum`: the checksum byte as stored. -/
def bus_checksum (p : packet_data) : Nat := p.byteAt p.get_checksum_pos

/-- Schema.h `packet_data::is_checksum_valid`: false unless the length is a
short (9) or long (12) frame, else compare the stored checksum byte with the
computed sum. -/
def is_checksum_valid (p : packet_data) : Bool :=
  if p.data_len ≠ frame_data_length_short ∧ p.data_len ≠ frame_data_length then false
  else p.byteAt p.get_checksum_pos == p.calculate_checksum

/-- Schema.h `packet_data::reset`: zero the length and the whole buffer. -/
def reset : packet_data :=
  { data := List.replicate frame_data_length 0, data_len := 0 }

/-- Schema.h `packet_data::set_checksum`: overwrite the checksum byte with
the computed sum. -/
def set_checksum (p : packet_data) : packet_data :=
  { p with data := p.data.set p.get_checksum_pos p.calculate_checksum }

/-- Schema.h `packet_data::from_type` (offset 1): copy the payload bytes
into the buffer starting at byte 1, set `data_len = 1 + size + 1`, then set
the checksum byte. -/
def from_type (p : packet_data) (payload : List Nat) : packet_data :=
  let d1 := p.data.take 1 ++ payload ++ p.data.drop (1 + payload.length)
  set_checksum { data := d1, data_len := 1 + payload.length + 1 }

/-- HPUtils.h `inverse(buffer, length)` as used on a packet: complement the
first `data_len` bytes of the buffer in place. -/
def inverse (p : packet_data) : packet_data :=
  { p with data := p.data.mapIdx (fun i b => if i < p.data_len then invByte b else b) }

end packet_data

/-- base_frame.h `frame_source_t`. -/
inductive frame_source where
  | SOURCE_UNKNOWN
  | SOURCE_HEATER
  | SOURCE_CONTROLLER
  | SOURCE_LOCAL
  deriving Repr, DecidableEq

/-- Decoder.h / Decoder.cpp: the frame state machine.  The fields mirror the
C++ members used by the receive path (`packet`, `started`, `finalized`,
`source_`, the bit accumulator and its index). -/
structure Decoder where
  packet : packet_data
  started : Bool
  finalized : Bool
  source_ : frame_source
  current_byte_value : Nat
  bit_current_index : Nat
  deriving Repr, DecidableEq

namespace Decoder

/-- Decoder.cpp `Decoder::reset`: zero the accumulator state, clear the
flags and the packet buffer.  The result does not depend on the prior
state, so it is a constant. -/
def resetState : Decoder :=
  { packet := packet_data.reset, started := false, finalized := false,
    source_ := .SOURCE_UNKNOWN, current_byte_value := 0, bit_current_index := 0 }

/-- base_frame.cpp `BaseFrame::is_size_valid`. -/
def is_size_valid (d : Decoder) : Bool :=
  d.packet.data_len == frame_data_length_short ||
  d.packet.data_len == frame_data_length

/-- base_frame.cpp `BaseFrame::is_checksum_valid(bool&)`: try the packet as
captured, then retry on the bitwise complement; reports whether inversion
was needed.  `none` means both polarities failed. -/
def checksum_polarity (p : packet_data) : Option Bool :=
  if p.is_checksum_valid then some false
  else if p.inverse.is_checksum_valid then some true
  else none

/-- Decoder.cpp `Decoder::is_complete`: started, of valid size, and the
checksum validates in one of the two polarities. -/
def is_complete (d : Decoder) : Bool :=
  d.started && d.is_size_valid && (checksum_polarity d.packet).isSome

/-- Decoder.cpp `Decoder::finalize` (the dispatch to `process` is modelled
by returning the source and the packet handed to the specialized parsers).
On success the packet is the captured bytes (source Controller) or their
complement (source Heater); on failure no frame is produced. -/
def finalize (d : Decoder) : Decoder × Option (frame_source × packet_data) :=
  let d0 : Decoder := { d with source_ := .SOURCE_UNKNOWN, finalized := false }
  if ¬ d.started then (d0, none)
  else if ¬ d0.is_size_valid then (d0, none)
  else
    match checksum_polarity d.packet with
    | some false =>
        let d1 : Decoder := { d0 with source_ := .SOURCE_CONTROLLER, finalized := true }
        (d1, some (.SOURCE_CONTROLLER, d1.packet))
    | some true =>
        let d1 : Decoder :=
          { d0 with packet := d.packet.inverse, source_ := .SOURCE_HEATER, finalized := true }
        (d1, some (.SOURCE_HEATER, d1.packet))
    | none => (d0, none)

/-- Decoder.cpp `Decoder::append_bit`: set the bit (LSB-first) when the
pulse was long, and after 8 bits push the byte into the packet buffer when
it still has room — when the buffer already holds 12 bytes the byte is
discarded — then advance `data_len` and clear the accumulator.
`data_len` is a `uint8_t`, so the increment wraps 255 → 0 (after which the
buffer becomes writable again). -/
def append_bit (d : Decoder) (long_duration : Bool) : Decoder :=
  if ¬ d.started then d
  else
    let cur := if long_duration
      then (d.current_byte_value ||| (1 <<< d.bit_current_index)) % 256
      else d.current_byte_value
    if d.bit_current_index + 1 = 8 then
      let newData :=
        if d.packet.data_len < frame_data_length
        then d.packet.data.set d.packet.data_len cur
        else d.packet.data
      { d with packet := { data := newData, data_len := (d.packet.data_len + 1) % 256 },
               bit_current_index := 0, current_byte_value := 0 }
    else
      { d with current_byte_value := cur, bit_current_index := d.bit_current_index + 1 }

end Decoder

/-- Bus.cpp `Bus::finalize_frame(timeout)`: run `Decoder::finalize`; on
success reset the current frame for the next sequence; on failure reset
only when called from the timeout path. -/
def finalize_frame (d : Decoder) (timeout : Bool) :
    Decoder × Option (frame_source × packet_data) :=
  match d.finalize with
  | (_, some r) => (Decoder.resetState, some r)
  | (d2, none) => if timeout then (Decoder.resetState, none) else (d2, none)

/-- Bus.cpp `Bus::RxTask` frame-end handling: when the idle timeout fires,
a complete frame is finalized (`finalize_frame(true)`), an incomplete one
is reset. -/
def rx_frame_end (d : Decoder) : Decoder × Option (frame_source × packet_data) :=
  if d.is_complete then finalize_frame d true else (Decoder.resetState, none)

/-- Schema.h `temperature_t::decode`: bit 0 is the half-degree, bits 1–5
the integer part, bit 6 a +2 offset, bit 7 the sign.  The decoded C++
`float` is an exact multiple of 0.5, modelled by `Rat`. -/
def temperature_decode (raw : Nat) : Rat :=
  let base : Rat := ((raw / 2) % 32 : Nat) +
    (if raw % 2 = 1 then (1 : Rat) / 2 else 0) +
    (if raw / 64 % 2 = 1 then 2 else 0)
  if raw / 128 % 2 = 1 then -base else base

/-- Schema.h `temperature_extended_t::decode`: bit 0 is the half-degree,
bits 1–7 the integer part biased by −30. -/
def temperature_extended_decode (raw : Nat) : Rat :=
  (((raw / 2) % 128 : Nat) : Rat) - 30 +
    (if raw % 2 = 1 then (1 : Rat) / 2 else 0)

/-- esphome `climate::ClimateMode`, restricted to the values produced by
`FrameConf1::get_climate_mode`. -/
inductive ClimateMode where
  | CLIMATE_MODE_OFF
  | CLIMATE_MODE_HEAT
  | CLIMATE_MODE_COOL
  | CLIMATE_MODE_AUTO
  deriving Repr, DecidableEq

/-- Schema.h `HeatPumpRestrict` (mode restriction). -/
inductive HeatPumpRestrict where
  | Cooling
  | Any
  | Heating
  deriving Repr, DecidableEq

/-- Schema.h `active_modes_t`. -/
inductive active_modes where
  | STATE_OFF
  | STATE_COOLING_MODE
  | STATE_HEATING_MODE
  | STATE_AUTO_MODE
  deriving Repr, DecidableEq

/-- FrameConf1.h `hp_mode_t` bit accessors on the raw mode byte:
`power` bit 0, `h02_enable_auto` bit 2, `h02_heating_only` bit 3,
`heat` bit 4, `auto_mode` bit 5. -/
def hp_mode_power (m : Nat) : Bool := Nat.testBit m 0

/-- FrameConf1.h `hp_mode_t.h02_enable_auto` (bit 2). -/
def hp_mode_enable_auto (m : Nat) : Bool := Nat.testBit m 2

/-- FrameConf1.h `hp_mode_t.h02_heating_only` (bit 3). -/
def hp_mode_heating_only (m : Nat) : Bool := Nat.testBit m 3

/-- FrameConf1.h `hp_mode_t.heat` (bit 4). -/
def hp_mode_heat (m : Nat) : Bool := Nat.testBit m 4

/-- FrameConf1.h `hp_mode_t.auto_mode` (bit 5). -/
def hp_mode_auto (m : Nat) : Bool := Nat.testBit m 5

/-- FrameConf1.h `hp_mode_t::get_mode_restriction`. -/
def get_mode_restriction (m : Nat) : HeatPumpRestrict :=
  if hp_mode_heating_only m then .Heating
  else if hp_mode_enable_auto m then .Any
  else .Cooling

/-- FrameConf1.cpp `FrameConf1::get_active_mode(hp_mode_t)`. -/
def get_active_mode (m : Nat) : active_modes :=
  if ¬ hp_mode_power m then .STATE_OFF
  else if hp_mode_auto m then .STATE_AUTO_MODE
  else if hp_mode_heat m then .STATE_HEATING_MODE
  else .STATE_COOLING_MODE

/-- FrameConf1.cpp `FrameConf1::get_climate_mode`. -/
def get_climate_mode (m : Nat) : ClimateMode :=
  match get_active_mode m with
  | .STATE_AUTO_MODE => .CLIMATE_MODE_AUTO
  | .STATE_COOLING_MODE => .CLIMATE_MODE_COOL
  | .STATE_HEATING_MODE => .CLIMATE_MODE_HEAT
  | .STATE_OFF => .CLIMATE_MODE_OFF

/-- Schema.h `heat_pump_data_t`, restricted to the fields written by the
parsers modelled here (`FrameConf1::parse`, `FrameConditions2::parse`).
All fields are optional and start absent. -/
structure heat_pump_data where
  mode : Option ClimateMode := none
  mode_restrictions : Option HeatPumpRestrict := none
  target_temperature : Option Rat := none
  r01_setpoint_cooling : Option Rat := none
  r02_setpoint_heating : Option Rat := none
  r03_setpoint_auto : Option Rat := none
  r04_return_diff_cooling : Option Rat := none
  r05_shutdown_temp_diff_when_cooling : Option Rat := none
  r06_return_diff_heating : Option Rat := none
  r07_shutdown_diff_heating : Option Rat := none
  t03_temperature_outlet : Option Rat := none
  t04_temperature_coil : Option Rat := none
  t06_temperature_exhaust : Option Rat := none
  deriving Repr, DecidableEq

/-- FrameConditions2.h `conditions2_t`: the 0xD2 long-frame payload,
starting at packet byte 1 (`packet_data::as_type` with offset 1).  Each
field holds the raw byte. -/
structure conditions2 where
  id : Nat
  reserved_1 : Nat
  reserved_2 : Nat
  t03_temperature : Nat
  t06_temperature_exhaust : Nat
  t04_temperature_coil : Nat
  reserved_5 : Nat
  temperature_4 : Nat
  reserved_7 : Nat
  reserved_8 : Nat
  deriving Repr, DecidableEq

/-- Reinterpret the packet bytes 1–10 as a `conditions2_t`
(Schema.h `packet_data::as_type`, offset 1). -/
def conditions2_of_packet (p : packet_data) : conditions2 :=
  { id := p.byteAt 1, reserved_1 := p.byteAt 2, reserved_2 := p.byteAt 3,
    t03_temperature := p.byteAt 4, t06_temperature_exhaust := p.byteAt 5,
    t04_temperature_coil := p.byteAt 6, reserved_5 := p.byteAt 7,
    temperature_4 := p.byteAt 8, reserved_7 := p.byteAt 9, reserved_8 := p.byteAt 10 }

/-- FrameConditions2.cpp `FrameConditions2::matches`: type byte 0xD2 and
long-frame size. -/
def FrameConditions2_matches (p : packet_data) : Bool :=
  p.get_type == 0xD2 && p.data_len == frame_data_length

/-- FrameConditions2.cpp `FrameConditions2::parse`: fold the outlet, coil
and exhaust temperatures into the canonical state. -/
def FrameConditions2_parse (c : conditions2) (hp : heat_pump_data) : heat_pump_data :=
  { hp with
    t03_temperature_outlet := some (temperature_decode c.t03_temperature),
    t04_temperature_coil := some (temperature_decode c.t04_temperature_coil),
    t06_temperature_exhaust := some (temperature_decode c.t06_temperature_exhaust) }

/-- FrameConf1.h `conf_1_t`: the 0x81 long-frame payload, starting at
packet byte 1.  Each field holds the raw byte. -/
structure conf_1 where
  id : Nat
  mode : Nat
  r01_setpoint_cooling : Nat
  r02_setpoint_heating : Nat
  r03_setpoint_auto : Nat
  r04_return_diff_cooling : Nat
  r05_shutdown_temp_diff_when_cooling : Nat
  r06_return_diff_heating : Nat
  r07_shutdown_diff_heating : Nat
  reserved_7 : Nat
  deriving Repr, DecidableEq

/-- Reinterpret the packet bytes 1–10 as a `conf_1_t`
(Schema.h `packet_data::as_type`, offset 1). -/
def conf_1_of_packet (p : packet_data) : conf_1 :=
  { id := p.byteAt 1, mode := p.byteAt 2, r01_setpoint_cooling := p.byteAt 3,
    r02_setpoint_heating := p.byteAt 4, r03_setpoint_auto := p.byteAt 5,
    r04_return_diff_cooling := p.byteAt 6, r05_shutdown_temp_diff_when_cooling := p.byteAt 7,
    r06_return_diff_heating := p.byteAt 8, r07_shutdown_diff_heating := p.byteAt 9,
    reserved_7 := p.byteAt 10 }

/-- Serialize a `conf_1_t` back to its 10 payload bytes (the layout used by
`packet_data::from_type` when a control frame is finalized). -/
def conf_1_to_bytes (c : conf_1) : List Nat :=
  [c.id, c.mode, c.r01_setpoint_cooling, c.r02_setpoint_heating, c.r03_setpoint_auto,
   c.r04_return_diff_cooling, c.r05_shutdown_temp_diff_when_cooling,
   c.r06_return_diff_heating, c.r07_shutdown_diff_heating, c.reserved_7]

/-- FrameConf1.cpp `FrameConf1::get_target_temperature`: choose the
setpoint of the active mode (heating when off). -/
def conf1_get_target_temperature (c : conf_1) : Rat :=
  match get_active_mode c.mode with
  | .STATE_AUTO_MODE => temperature_decode c.r03_setpoint_auto
  | .STATE_COOLING_MODE => temperature_decode c.r01_setpoint_cooling
  | .STATE_HEATING_MODE => temperature_decode c.r02_setpoint_heating
  | .STATE_OFF => temperature_decode c.r02_setpoint_heating

/-- FrameConf1.cpp `FrameConf1::parse`: a frame whose source is not the
heater is ignored; otherwise the climate mode, target, restriction and the
seven tuning setpoints are folded into the canonical state. -/
def FrameConf1_parse (src : frame_source) (c : conf_1) (hp : heat_pump_data) :
    heat_pump_data :=
  if src ≠ frame_source.SOURCE_HEATER then hp
  else
    { hp with
      mode := some (get_climate_mode c.mode),
      target_temperature := some (conf1_get_target_temperature c),
      mode_restrictions := some (get_mode_restriction c.mode),
      r01_setpoint_cooling := some (temperature_decode c.r01_setpoint_cooling),
      r02_setpoint_heating := some (temperature_decode c.r02_setpoint_heating),
      r03_setpoint_auto := some (temperature_decode c.r03_setpoint_auto),
      r04_return_diff_cooling := some (temperature_extended_decode c.r04_return_diff_cooling),
      r05_shutdown_temp_diff_when_cooling :=
        some (temperature_extended_decode c.r05_shutdown_temp_diff_when_cooling),
      r06_return_diff_heating := some (temperature_extended_decode c.r06_return_diff_heating),
      r07_shutdown_diff_heating := some (temperature_extended_decode c.r07_shutdown_diff_heating) }

/-- C1. For a 12-byte raw packet the checksum byte is byte 11 and the
computed checksum is the sum of bytes 0–10 modulo 256; for a 9-byte packet
the checksum byte is byte 8 and the computed checksum is the sum of bytes
1–7 modulo 256 (byte 0 skipped); `is_checksum_valid` returns true exactly
when the stored checksum byte equals this computed sum, and returns false
for any length other than 9 or 12
(Schema.h `short_frame_t::calculate_checksum`,
`long_frame_t::calculate_checksum`, `packet_data::is_checksum_valid`).
-/
theorem checksum_layout_and_validity (p : packet_data) :
    (p.data_len = 12 →
      p.get_checksum_pos = 11 ∧
      p.calculate_checksum = packet_data.sumRange p.data 0 11 % 256) ∧
    (p.data_len = 9 →
      p.get_checksum_pos = 8 ∧
      p.calculate_checksum = packet_data.sumRange p.data 1 8 % 256) ∧
    (p.data_len = 9 ∨ p.data_len = 12 →
      (p.is_checksum_valid = true ↔
        p.byteAt p.get_checksum_pos = p.calculate_checksum)) ∧
    (p.data_len ≠ 9 ∧ p.data_len ≠ 12 → p.is_checksum_valid = false) := by
  refine ⟨?_, ?_, ?_, ?_⟩
  · intro h
    constructor
    · simp [packet_data.get_checksum_pos, h, frame_data_length]
    · simp [packet_data.calculate_checksum, packet_data.is_short_frame, h,
        frame_data_length_short, packet_data.long_frame_calculate_checksum]
  · intro h
    constructor
    · simp [packet_data.get_checksum_pos, h, frame_data_length]
    · simp [packet_data.calculate_checksum, packet_data.is_short_frame, h,
        frame_data_length_short, packet_data.short_frame_calculate_checksum]
  · intro h
    have hne : ¬ (p.data_len ≠ frame_data_length_short ∧ p.data_len ≠ frame_data_length) := by
      rcases h with h | h <;> simp [h, frame_data_length_short, frame_data_length]
    simp [packet_data.is_checksum_valid, hne]
  · intro h
    simp [packet_data.is_checksum_valid, frame_data_length_short, frame_data_length, h.1, h.2]

/-- Witness for `checksum_layout_and_validity`: the concrete heater frame
`D2 B1 11 66 75 52 5F 00 64 00 00 84` of length 12 discharges every
hypothesis. -/
theorem checksum_layout_and_validity_witness :
    (⟨[0xD2, 0xB1, 0x11, 0x66, 0x75, 0x52, 0x5F, 0x00, 0x64, 0x00, 0x00, 0x84],
      12⟩ : packet_data).get_checksum_pos = 11 ∧
    (⟨[0xD2, 0xB1, 0x11, 0x66, 0x75, 0x52, 0x5F, 0x00, 0x64, 0x00, 0x00, 0x84],
      12⟩ : packet_data).is_checksum_valid = true := by
  have h := checksum_layout_and_validity
    ⟨[0xD2, 0xB1, 0x11, 0x66, 0x75, 0x52, 0x5F, 0x00, 0x64, 0x00, 0x00, 0x84], 12⟩
  exact ⟨(h.1 rfl).1, ((h.2.2.1 (Or.inr rfl)).mpr (by decide))⟩

/-- The 0xD2 heater conditions frame of §8 scenario 1, as its bytes appear
after polarity correction. -/
def frameD2 : packet_data :=
  ⟨[0xD2, 0xB1, 0x11, 0x66, 0x75, 0x52, 0x5F, 0x00, 0x64, 0x00, 0x00, 0x84], 12⟩

/-- The same frame as captured on the bus (bit-inverted: every byte is the
bitwise complement of `frameD2`). -/
def capturedD2 : packet_data :=
  ⟨[0x2D, 0x4E, 0xEE, 0x99, 0x8A, 0xAD, 0xA0, 0xFF, 0x9B, 0xFF, 0xFF, 0x7B], 12⟩

/-- C3. The 12-byte packet `D2 B1 11 66 75 52 5F 00 64 00 00 84` received
bit-inverted finalizes as a valid frame with source Heater and the
complemented (original) bytes; it is matched by the 0xD2 long-frame parser;
and parsing sets the canonical outlet temperature to 28.5 °C, the exhaust
temperature to 11.0 °C and the coil temperature to 17.5 °C
(Decoder.cpp `Decoder::finalize`, FrameConditions2.cpp
`FrameConditions2::matches` / `parse`, Schema.h `temperature::decode`).
-/
theorem heater_conditions2_decode :
    (Decoder.finalize
      { packet := capturedD2, started := true, finalized := false,
        source_ := .SOURCE_UNKNOWN, current_byte_value := 0, bit_current_index := 0 }).2 =
      some (.SOURCE_HEATER, frameD2) ∧
    frameD2.get_type = 0xD2 ∧
    FrameConditions2_matches frameD2 = true ∧
    (FrameConditions2_parse (conditions2_of_packet frameD2) {}).t03_temperature_outlet =
      some ((57 : Rat) / 2) ∧
    (FrameConditions2_parse (conditions2_of_packet frameD2) {}).t06_temperature_exhaust =
      some (11 : Rat) ∧
    (FrameConditions2_parse (conditions2_of_packet frameD2) {}).t04_temperature_coil =
      some ((35 : Rat) / 2) := by
  refine ⟨by decide, by decide, by decide, ?_, ?_, ?_⟩ <;>
    · norm_num [FrameConditions2_parse, conditions2_of_packet, frameD2,
        packet_data.byteAt, temperature_decode]

/-- The 0x81 controller mode/setpoint frame of §8 scenario 2, with its
checksum byte `0x32 = (81+B1+17+06+77+78+3D·4) mod 256`. -/
def conf1Packet : packet_data :=
  ⟨[0x81, 0xB1, 0x17, 0x06, 0x77, 0x78, 0x3D, 0x3D, 0x3D, 0x3D, 0x00, 0x32], 12⟩

/-- C4 counterexample. The frame `81 B1 17 06 77 78 3D 3D 3D 3D 00 32`
received from the controller (source Controller) does **not** update the
canonical heat-pump state: `FrameConf1::parse` returns immediately for any
source other than the heater, so the state keeps `mode = none` instead of
`mode = Heat` (FrameConf1.cpp `FrameConf1::parse`, lines 361–365).
-/
theorem conf1_controller_frame_ignored :
    FrameConf1_parse .SOURCE_CONTROLLER (conf_1_of_packet conf1Packet) {} =
      ({} : heat_pump_data) ∧
    (FrameConf1_parse .SOURCE_CONTROLLER (conf_1_of_packet conf1Packet) {}).mode ≠
      some .CLIMATE_MODE_HEAT := by
  constructor
  · decide
  · decide

/-- C4 amended. The frame `81 B1 17 06 77 78 3D 3D 3D 3D 00 32` finalizes
from the controller with source Controller, but `FrameConf1::parse` applies
its updates only when the source is the heater: with source Controller the
canonical state is unchanged, and with source Heater the state receives
mode = Heat (power bit on), the cooling setpoint decoded from byte 3, the
heating setpoint decoded from byte 4, the auto setpoint decoded from
byte 5, and the mode restriction (Any) decoded from the mode bits of
byte 2 (FrameConf1.cpp `FrameConf1::parse`, FrameConf1.h `hp_mode_t`).
-/
theorem conf1_parse_heater_only :
    (Decoder.finalize
      { packet := conf1Packet, started := true, finalized := false,
        source_ := .SOURCE_UNKNOWN, current_byte_value := 0, bit_current_index := 0 }).2 =
      some (.SOURCE_CONTROLLER, conf1Packet) ∧
    FrameConf1_parse .SOURCE_CONTROLLER (conf_1_of_packet conf1Packet) {} =
      ({} : heat_pump_data) ∧
    hp_mode_power (conf1Packet.byteAt 2) = true ∧
    (FrameConf1_parse .SOURCE_HEATER (conf_1_of_packet conf1Packet) {}).mode =
      some .CLIMATE_MODE_HEAT ∧
    (FrameConf1_parse .SOURCE_HEATER (conf_1_of_packet conf1Packet) {}).r01_setpoint_cooling =
      some (temperature_decode (conf1Packet.byteAt 3)) ∧
    (FrameConf1_parse .SOURCE_HEATER (conf_1_of_packet conf1Packet) {}).r02_setpoint_heating =
      some (temperature_decode (conf1Packet.byteAt 4)) ∧
    (FrameConf1_parse .SOURCE_HEATER (conf_1_of_packet conf1Packet) {}).r03_setpoint_auto =
      some (temperature_decode (conf1Packet.byteAt 5)) ∧
    (FrameConf1_parse .SOURCE_HEATER (conf_1_of_packet conf1Packet) {}).mode_restrictions =
      some (get_mode_restriction (conf1Packet.byteAt 2)) ∧
    get_mode_restriction (conf1Packet.byteAt 2) = .Any := by
  refine ⟨by decide, by decide, by decide, by decide, by rfl, by rfl, by rfl, by rfl,
    by decide⟩

/-- C2. For a captured frame candidate of valid length (9 or 12 bytes): if
the checksum validates over the bytes as captured the source is Controller
and the bytes are kept; otherwise, if it validates after complementing
every byte, the source is Heater and the packet is replaced by its
complement before dispatch; otherwise no specialized frame is produced and
the framer resets (base_frame.cpp `BaseFrame::is_checksum_valid`,
Decoder.cpp `Decoder::finalize`, Bus.cpp frame-end handling).
-/
theorem frame_polarity_decision (d : Decoder) (hs : d.started = true)
    (hl : d.packet.data_len = 9 ∨ d.packet.data_len = 12) :
    (d.packet.is_checksum_valid = true →
      d.finalize.2 = some (.SOURCE_CONTROLLER, d.packet) ∧
      rx_frame_end d = (Decoder.resetState, some (.SOURCE_CONTROLLER, d.packet))) ∧
    (d.packet.is_checksum_valid = false →
      d.packet.inverse.is_checksum_valid = true →
      d.finalize.2 = some (.SOURCE_HEATER, d.packet.inverse) ∧
      rx_frame_end d = (Decoder.resetState, some (.SOURCE_HEATER, d.packet.inverse))) ∧
    (d.packet.is_checksum_valid = false →
      d.packet.inverse.is_checksum_valid = false →
      d.finalize.2 = none ∧
      rx_frame_end d = (Decoder.resetState, none)) := by
  refine ⟨?_, ?_, ?_⟩
  · intro hok
    have hpol : Decoder.checksum_polarity d.packet = some false := by
      simp [Decoder.checksum_polarity, hok]
    rcases hl with h | h <;>
      exact ⟨by simp [Decoder.finalize, Decoder.is_size_valid, hs, h, hpol,
          frame_data_length_short, frame_data_length],
        by simp [rx_frame_end, finalize_frame, Decoder.is_complete, Decoder.finalize,
          Decoder.is_size_valid, hs, h, hpol, frame_data_length_short, frame_data_length]⟩
  · intro hbad hinv
    have hpol : Decoder.checksum_polarity d.packet = some true := by
      simp [Decoder.checksum_polarity, hbad, hinv]
    rcases hl with h | h <;>
      exact ⟨by simp [Decoder.finalize, Decoder.is_size_valid, hs, h, hpol,
          frame_data_length_short, frame_data_length],
        by simp [rx_frame_end, finalize_frame, Decoder.is_complete, Decoder.finalize,
          Decoder.is_size_valid, hs, h, hpol, frame_data_length_short, frame_data_length]⟩
  · intro hbad hinv
    have hpol : Decoder.checksum_polarity d.packet = none := by
      simp [Decoder.checksum_polarity, hbad, hinv]
    rcases hl with h | h <;>
      exact ⟨by simp [Decoder.finalize, Decoder.is_size_valid, hs, h, hpol,
          frame_data_length_short, frame_data_length],
        by simp [rx_frame_end, Decoder.is_complete, hpol]⟩

/-- Witness for `frame_polarity_decision`: the controller frame
`81 B1 17 06 77 78 3D 3D 3D 3D 00 32` finalizes with source Controller and
its bytes kept. -/
theorem frame_polarity_decision_witness :
    rx_frame_end
      { packet := ⟨[0x81, 0xB1, 0x17, 0x06, 0x77, 0x78, 0x3D, 0x3D, 0x3D, 0x3D, 0x00, 0x32], 12⟩,
        started := true, finalized := false, source_ := .SOURCE_UNKNOWN,
        current_byte_value := 0, bit_current_index := 0 } =
    (Decoder.resetState,
      some (.SOURCE_CONTROLLER,
        ⟨[0x81, 0xB1, 0x17, 0x06, 0x77, 0x78, 0x3D, 0x3D, 0x3D, 0x3D, 0x00, 0x32], 12⟩)) :=
  ((frame_polarity_decision
      { packet := ⟨[0x81, 0xB1, 0x17, 0x06, 0x77, 0x78, 0x3D, 0x3D, 0x3D, 0x3D, 0x00, 0x32], 12⟩,
        started := true, finalized := false, source_ := .SOURCE_UNKNOWN,
        current_byte_value := 0, bit_current_index := 0 }
      rfl (Or.inr rfl)).1 (by decide)).2

/-- C7 counterexample. When an eight-bit byte completes while the packet
buffer already holds 12 bytes, `Decoder::append_bit` does **not** reset the
frame: on the concrete overflowing state below the decoder stays started
and `data_len` grows to 13, instead of returning to the reset state
(Decoder.cpp `Decoder::append_bit`).
-/
theorem append_bit_overflow_no_reset :
    (Decoder.append_bit
      { packet := ⟨[0xD2, 0xB1, 0x11, 0x66, 0x75, 0x52, 0x5F, 0x00, 0x64, 0x00, 0x00, 0x84], 12⟩,
        started := true, finalized := false, source_ := .SOURCE_UNKNOWN,
        current_byte_value := 0x55, bit_current_index := 7 } true) ≠ Decoder.resetState ∧
    (Decoder.append_bit
      { packet := ⟨[0xD2, 0xB1, 0x11, 0x66, 0x75, 0x52, 0x5F, 0x00, 0x64, 0x00, 0x00, 0x84], 12⟩,
        started := true, finalized := false, source_ := .SOURCE_UNKNOWN,
        current_byte_value := 0x55, bit_current_index := 7 } true).packet.data_len = 13 ∧
    (Decoder.append_bit
      { packet := ⟨[0xD2, 0xB1, 0x11, 0x66, 0x75, 0x52, 0x5F, 0x00, 0x64, 0x00, 0x00, 0x84], 12⟩,
        started := true, finalized := false, source_ := .SOURCE_UNKNOWN,
        current_byte_value := 0x55, bit_current_index := 7 } true).started = true := by
  refine ⟨?_, by decide, by decide⟩
  intro h
  have : (Decoder.append_bit
      { packet := ⟨[0xD2, 0xB1, 0x11, 0x66, 0x75, 0x52, 0x5F, 0x00, 0x64, 0x00, 0x00, 0x84], 12⟩,
        started := true, finalized := false, source_ := .SOURCE_UNKNOWN,
        current_byte_value := 0x55, bit_current_index := 7 } true).started = false := by
    rw [h]; rfl
  simp at this
  exact absurd this (by decide)

/-- C7 amended. When an eight-bit byte completes while the packet buffer
already holds 12 bytes, `Decoder::append_bit` discards the byte (the buffer
is unchanged), advances the 8-bit `data_len` modulo 256 and leaves the
frame started — it does not reset.  While the length stays below the wrap
(13 … 255) the frame is not size-valid, cannot finalize, and is reset by
the frame-end handling rather than by `append_bit`; at `data_len = 255`
the `uint8_t` increment wraps the length to 0, re-opening the buffer for
writes, so the overlong frame is not permanently barred from finalizing
(Decoder.cpp `Decoder::append_bit` line 126, `Decoder::finalize`, Bus.cpp
RxTask).
-/
theorem append_bit_overflow_discards (d : Decoder) (b : Bool)
    (hs : d.started = true) (hfull : 12 ≤ d.packet.data_len)
    (hle : d.packet.data_len ≤ 255) (hbit : d.bit_current_index = 7) :
    (d.append_bit b).packet.data = d.packet.data ∧
    (d.append_bit b).packet.data_len = (d.packet.data_len + 1) % 256 ∧
    (d.append_bit b).started = true ∧
    (d.packet.data_len ≤ 254 →
      (d.append_bit b).packet.data_len = d.packet.data_len + 1 ∧
      (d.append_bit b).is_size_valid = false ∧
      ((d.append_bit b).finalize).2 = none ∧
      rx_frame_end (d.append_bit b) = (Decoder.resetState, none)) ∧
    (d.packet.data_len = 255 → (d.append_bit b).packet.data_len = 0) := by
  have hlt : ¬ d.packet.data_len < frame_data_length := by
    simp [frame_data_length]; omega
  have happ : d.append_bit b =
      { d with packet := { data := d.packet.data, data_len := (d.packet.data_len + 1) % 256 },
               bit_current_index := 0, current_byte_value := 0 } := by
    simp [Decoder.append_bit, hs, hbit, hlt]
  refine ⟨by rw [happ], by rw [happ], by rw [happ, hs], ?_, ?_⟩
  · intro h254
    have hmod : (d.packet.data_len + 1) % 256 = d.packet.data_len + 1 :=
      Nat.mod_eq_of_lt (by omega)
    have hdl : (d.append_bit b).packet.data_len = d.packet.data_len + 1 := by
      rw [happ]; exact hmod
    have hsz : (d.append_bit b).is_size_valid = false := by
      simp [Decoder.is_size_valid, hdl, frame_data_length_short, frame_data_length]
      omega
    refine ⟨hdl, hsz, ?_, ?_⟩
    · have hstarted : (d.append_bit b).started = true := by rw [happ]; exact hs
      have hsz2 : ((d.append_bit b).packet.data_len == frame_data_length_short ||
          (d.append_bit b).packet.data_len == frame_data_length) = false := hsz
      simp [Decoder.finalize, Decoder.is_size_valid, hstarted, hsz2]
    · simp [rx_frame_end, Decoder.is_complete, hsz]
  · intro h255
    rw [happ]
    show (d.packet.data_len + 1) % 256 = 0
    rw [h255]

/-- Witness for `append_bit_overflow_discards` at a concrete overflowing
decoder state with `data_len = 12`. -/
theorem append_bit_overflow_discards_witness :
    (Decoder.append_bit
      { packet := ⟨[1, 2, 3, 4, 5, 6, 7, 8, 9, 10, 11, 12], 12⟩,
        started := true, finalized := false, source_ := .SOURCE_UNKNOWN,
        current_byte_value := 0, bit_current_index := 7 } false).packet.data_len = 13 ∧
    rx_frame_end (Decoder.append_bit
      { packet := ⟨[1, 2, 3, 4, 5, 6, 7, 8, 9, 10, 11, 12], 12⟩,
        started := true, finalized := false, source_ := .SOURCE_UNKNOWN,
        current_byte_value := 0, bit_current_index := 7 } false) =
      (Decoder.resetState, none) := by
  have h := append_bit_overflow_discards
    { packet := ⟨[1, 2, 3, 4, 5, 6, 7, 8, 9, 10, 11, 12], 12⟩,
      started := true, finalized := false, source_ := .SOURCE_UNKNOWN,
      current_byte_value := 0, bit_current_index := 7 } false rfl (by decide) (by decide) rfl
  have h2 := h.2.2.2.1 (by decide)
  exact ⟨h2.1, h2.2.2.2⟩

/-- base_frame.h `CLASS_DEFAULT_IMPL`: the singleton state of a specialized
frame — the latest observed payload `data_` and the previous payload
`prev_data_`, both optional. -/
structure SpecState (P : Type) where
  data_ : Option P
  prev_data_ : Option P
  deriving Repr, DecidableEq

namespace SpecState

/-- base_frame.h `CLASS_DEFAULT_IMPL::stage`: reinterpret the incoming
packet as the typed payload and store it in `data_`. -/
def stage {P : Type} (s : SpecState P) (staged : P) : SpecState P :=
  { s with data_ := some staged }

/-- base_frame.h `CLASS_DEFAULT_IMPL::transfer`:
`prev_data_ = *data_` (always called after `stage`, so `data_` is
present). -/
def transfer {P : Type} (s : SpecState P) : SpecState P :=
  { s with prev_data_ := s.data_ }

/-- base_frame.cpp `BaseFrame::process` restricted to the payload
fields of the singleton: `stage` (copy the new frame in), then `parse` (which does
not touch the singleton), then `transfer`. -/
def process_frame {P : Type} (s : SpecState P) (staged : P) : SpecState P :=
  (s.stage staged).transfer

end SpecState

/-- C8 counterexample. Processing a received frame does **not** leave
`prev_data` holding the previously decoded payload: `stage` overwrites
`data_` with the new payload *before* `transfer` copies `data_` into
`prev_data_`, so immediately after processing a frame whose payload
differs from the previous one, `prev_data_` holds the *new* payload.  On
the concrete singleton below (previous payload with mode byte `0x17`,
new frame with mode byte `0x16`), `prev_data_` ends up holding the new
payload, not the old one (base_frame.h `CLASS_DEFAULT_IMPL`
stage/transfer, base_frame.cpp `BaseFrame::process`).
-/
theorem process_frame_prev_data_not_old :
    (SpecState.process_frame
        ⟨some ⟨0xB1, 0x17, 0x06, 0x77, 0x78, 0x3D, 0x3D, 0x3D, 0x3D, 0x00⟩,
         some ⟨0xB1, 0x17, 0x06, 0x77, 0x78, 0x3D, 0x3D, 0x3D, 0x3D, 0x00⟩⟩
        (⟨0xB1, 0x16, 0x06, 0x77, 0x78, 0x3D, 0x3D, 0x3D, 0x3D, 0x00⟩ : conf_1)).prev_data_ ≠
      some ⟨0xB1, 0x17, 0x06, 0x77, 0x78, 0x3D, 0x3D, 0x3D, 0x3D, 0x00⟩ ∧
    (SpecState.process_frame
        ⟨some ⟨0xB1, 0x17, 0x06, 0x77, 0x78, 0x3D, 0x3D, 0x3D, 0x3D, 0x00⟩,
         some ⟨0xB1, 0x17, 0x06, 0x77, 0x78, 0x3D, 0x3D, 0x3D, 0x3D, 0x00⟩⟩
        (⟨0xB1, 0x16, 0x06, 0x77, 0x78, 0x3D, 0x3D, 0x3D, 0x3D, 0x00⟩ : conf_1)).data_ =
      some ⟨0xB1, 0x16, 0x06, 0x77, 0x78, 0x3D, 0x3D, 0x3D, 0x3D, 0x00⟩ := by
  constructor
  · decide
  · decide

/-- C8 amended. When the registry processes a received valid frame,
`stage` first sets `data_` to the newly staged payload and `transfer` then
copies `data_` into `prev_data_`; hence immediately after processing both
`data_` and `prev_data_` hold the new payload, and the previously decoded
payload is visible in `prev_data_` only between `stage` and `transfer`
(i.e. while `parse` and the change diff run) (base_frame.h
`CLASS_DEFAULT_IMPL` stage/transfer, base_frame.cpp `BaseFrame::process`).
-/
theorem process_frame_updates (s : SpecState conf_1) (staged : conf_1) :
    (s.process_frame staged).data_ = some staged ∧
    (s.process_frame staged).prev_data_ = some staged ∧
    (s.stage staged).prev_data_ = s.prev_data_ := by
  exact ⟨rfl, rfl, rfl⟩

/-- FrameConf2.h `conf_2_t`: the 0x82 long-frame payload, starting at
packet byte 1.  Each field holds the raw byte. -/
structure conf_2 where
  id : Nat
  fan_mode : Nat
  d01_defrost_start : Nat
  d02_defrost_end : Nat
  d03_defrosting_cycle_time_minutes : Nat
  d04_max_defrost_time_minutes : Nat
  unknown_5 : Nat
  unknown_6 : Nat
  unknown_7 : Nat
  unknown_8 : Nat
  deriving Repr, DecidableEq

/-- Serialize a `conf_2_t` back to its 10 payload bytes. -/
def conf_2_to_bytes (c : conf_2) : List Nat :=
  [c.id, c.fan_mode, c.d01_defrost_start, c.d02_defrost_end,
   c.d03_defrosting_cycle_time_minutes, c.d04_max_defrost_time_minutes,
   c.unknown_5, c.unknown_6, c.unknown_7, c.unknown_8]

/-- FrameConf1.cpp `FrameConf1::control`: the command frame is a copy of
the singleton whose `prev_data_` is set to the held payload; the
call-driven field writes (modelled by `apply`, the transformation they
induce on the payload) update its `data_`; if nothing changed relative to
the held payload the function returns none, if no payload was ever
observed it returns none with a warning, and otherwise the staged payload
is finalized into an outbound packet. -/
def FrameConf1_control (this_packet : packet_data) (held : Option conf_1)
    (apply : conf_1 → conf_1) : Option packet_data :=
  match held with
  | none => none
  | some d =>
    let staged := apply d
    if staged = d then none
    else some (this_packet.from_type (conf_1_to_bytes staged))

/-- FrameConf2.cpp `FrameConf2::control`: same structure as
`FrameConf1::control` over the `conf_2_t` payload. -/
def FrameConf2_control (this_packet : packet_data) (held : Option conf_2)
    (apply : conf_2 → conf_2) : Option packet_data :=
  match held with
  | none => none
  | some d =>
    let staged := apply d
    if staged = d then none
    else some (this_packet.from_type (conf_2_to_bytes staged))

/-- C5. For a specialized frame that already holds an observed payload, a
control call whose delta leaves the staged payload equal to the held
payload returns none and produces no outbound frame (FrameConf1.cpp
`FrameConf1::control`, FrameConf2.cpp `FrameConf2::control`: the copy
constructor sets `prev_data_` to the held payload, so `is_changed()` is
false exactly when the staged payload equals it).
-/
theorem control_diff_only :
    (∀ (pk : packet_data) (d : conf_1) (apply : conf_1 → conf_1),
      apply d = d → FrameConf1_control pk (some d) apply = none) ∧
    (∀ (pk : packet_data) (d : conf_2) (apply : conf_2 → conf_2),
      apply d = d → FrameConf2_control pk (some d) apply = none) := by
  constructor
  · intro pk d apply h
    simp [FrameConf1_control, h]
  · intro pk d apply h
    simp [FrameConf2_control, h]

/-- Witness for `control_diff_only`: the identity delta on concrete held
payloads yields no outbound frame for both specialized frames. -/
theorem control_diff_only_witness :
    FrameConf1_control conf1Packet
      (some ⟨0xB1, 0x17, 0x06, 0x77, 0x78, 0x3D, 0x3D, 0x3D, 0x3D, 0x00⟩) id = none ∧
    FrameConf2_control conf1Packet
      (some ⟨0xB2, 0x30, 0x3D, 0x05, 0x5A, 0x14, 0x00, 0x00, 0x00, 0x00⟩) id = none :=
  ⟨control_diff_only.1 conf1Packet ⟨0xB1, 0x17, 0x06, 0x77, 0x78, 0x3D, 0x3D, 0x3D, 0x3D, 0x00⟩
      id rfl,
   control_diff_only.2 conf1Packet ⟨0xB2, 0x30, 0x3D, 0x05, 0x5A, 0x14, 0x00, 0x00, 0x00, 0x00⟩
      id rfl⟩

/-- base_frame.h `delay_between_sending_messages_ms = 10 * 1000`. -/
def delay_between_sending_messages_ms : Nat := 10 * 1000

/-- The modulus of the 32-bit unsigned millisecond timestamps
(`uint32_t millis()`). -/
def u32_mod : Nat := 2 ^ 32

/-- Bus.h `Bus::is_time_for_next`: true when no packet has ever been sent,
or `previous_sent_packet_.value() + delay_between_sending_messages_ms <=
millis()`.  All three operands are `uint32_t`, so the addition wraps
modulo 2^32; both arguments are the `uint32_t` timestamp values
(reduced modulo 2^32 here so the model is total). -/
def is_time_for_next (previous_sent_packet_ : Option Nat) (now : Nat) : Bool :=
  previous_sent_packet_.isNone ||
  decide ((previous_sent_packet_.getD 0 + delay_between_sending_messages_ms) % u32_mod ≤
    now % u32_mod)

/-- Bus.cpp `Bus::process_send_queue` guard: the scheduler dequeues and
sends only when the queue has a packet, no frame is being received, the
throttle window has elapsed and there is time before the next controller
frame. -/
def process_send_queue_proceeds (queue_has_next in_receive_started : Bool)
    (previous_sent_packet_ : Option Nat) (has_time_to_send : Bool) (now : Nat) : Bool :=
  queue_has_next && !in_receive_started &&
  is_time_for_next previous_sent_packet_ now && has_time_to_send

/-- C6 failing input. The throttle guard does **not** guarantee 10 s of
non-transmit time between bursts: Bus.h line 189 computes
`previous_sent_packet_ + 10000 <= millis()` in `uint32_t`, so near the
timer wrap the addition overflows.  With the previous transmit completed
at `previous_sent_packet_ = 4294957297` (= 2^32 − 9999 ms) and
`millis() = 4294957298` — one millisecond later — the sum wraps to 1, the
guard returns true, and `process_send_queue` may dequeue and send although
only 1 ms (< 10 000 ms) has elapsed.  This contradicts the claim and the
doc comment of `is_time_for_next` itself ("the time since the last packet
exceeds the delay between sending messages"); the wrap-safe idiom would be
`millis() - previous_sent_packet_ >= 10000`
(Bus.h `Bus::is_time_for_next`, Bus.cpp `Bus::process_send_queue`).
-/
theorem tx_throttle_wrap_bug :
    is_time_for_next (some 4294957297) 4294957298 = true ∧
    process_send_queue_proceeds true false (some 4294957297) true 4294957298 = true ∧
    4294957298 - 4294957297 = 1 ∧
    1 < delay_between_sending_messages_ms := by
  refine ⟨by decide, by decide, by decide, by decide⟩

/-- Writing a byte at position `j` does not change a byte-range sum that
stops at or before `j`. -/
theorem sumRange_set_of_le (d : List Nat) (j c lo hi : Nat) (h : hi ≤ j) :
    packet_data.sumRange (d.set j c) lo hi = packet_data.sumRange d lo hi := by
  unfold packet_data.sumRange
  congr 1
  refine List.map_congr_left ?_
  intro i him
  have hlt : i < hi := List.mem_range.mp (List.mem_of_mem_drop him)
  have hne : j ≠ i := by omega
  simp [List.getD_eq_getElem?_getD, List.getElem?_set_ne hne]

/-- Schema.h `packet_data::set_checksum` on a well-formed 9- or 12-byte
frame: the length is preserved, the checksum byte now stores the computed
sum, and `is_checksum_valid` holds. -/
theorem set_checksum_sound (q1 : packet_data) (hq1 : q1.data.length = 12)
    (hl : q1.data_len = 9 ∨ q1.data_len = 12) :
    q1.set_checksum.data_len = q1.data_len ∧
    q1.set_checksum.byteAt q1.set_checksum.get_checksum_pos =
      q1.set_checksum.calculate_checksum ∧
    q1.set_checksum.is_checksum_valid = true := by
  have hdl : q1.set_checksum.data_len = q1.data_len := rfl
  have hposval : q1.get_checksum_pos = q1.data_len - 1 := by
    rcases hl with h | h <;> simp [packet_data.get_checksum_pos, h, frame_data_length]
  have hpos2 : q1.set_checksum.get_checksum_pos = q1.data_len - 1 := by
    rw [show q1.set_checksum.get_checksum_pos = q1.get_checksum_pos from rfl, hposval]
  have hsumlo : ∀ lohi : Nat × Nat, lohi.2 ≤ q1.data_len - 1 →
      packet_data.sumRange q1.set_checksum.data lohi.1 lohi.2 =
      packet_data.sumRange q1.data lohi.1 lohi.2 := by
    intro lohi hle
    have : q1.set_checksum.data = q1.data.set (q1.data_len - 1) q1.calculate_checksum := by
      simp [packet_data.set_checksum, hposval]
    rw [this, sumRange_set_of_le _ _ _ _ _ hle]
  have hcalc2 : q1.set_checksum.calculate_checksum = q1.calculate_checksum := by
    rcases hl with h | h
    · have h9 : q1.set_checksum.data_len = 9 := by rw [hdl, h]
      rw [show q1.set_checksum.calculate_checksum =
            packet_data.sumRange q1.set_checksum.data 1 8 % 256 from by
          simp [packet_data.calculate_checksum, packet_data.is_short_frame, h9,
            frame_data_length_short, packet_data.short_frame_calculate_checksum]]
      rw [hsumlo (1, 8) (by rw [h])]
      simp [packet_data.calculate_checksum, packet_data.is_short_frame, h,
        frame_data_length_short, packet_data.short_frame_calculate_checksum]
    · have h12 : q1.set_checksum.data_len = 12 := by rw [hdl, h]
      rw [show q1.set_checksum.calculate_checksum =
            packet_data.sumRange q1.set_checksum.data 0 11 % 256 from by
          simp [packet_data.calculate_checksum, packet_data.is_short_frame, h12,
            frame_data_length_short, frame_data_length,
            packet_data.long_frame_calculate_checksum]]
      rw [hsumlo (0, 11) (by rw [h])]
      simp [packet_data.calculate_checksum, packet_data.is_short_frame, h,
        frame_data_length_short, frame_data_length,
        packet_data.long_frame_calculate_checksum]
  have hbyte : q1.set_checksum.byteAt q1.set_checksum.get_checksum_pos =
      q1.calculate_checksum := by
    rw [hpos2]
    have hlt : q1.data_len - 1 < q1.data.length := by
      rw [hq1]; rcases hl with h | h <;> omega
    show (q1.data.set q1.get_checksum_pos q1.calculate_checksum).getD (q1.data_len - 1) 0 =
      q1.calculate_checksum
    rw [hposval]
    simp [List.getD_eq_getElem?_getD, List.getElem?_set_self, hlt]
  refine ⟨hdl, by rw [hbyte, hcalc2], ?_⟩
  have hcond : ¬ (q1.set_checksum.data_len ≠ frame_data_length_short ∧
      q1.set_checksum.data_len ≠ frame_data_length) := by
    rw [hdl]
    rcases hl with h | h <;> simp [h, frame_data_length_short, frame_data_length]
  simp only [packet_data.is_checksum_valid, if_neg hcond]
  rw [hbyte, hcalc2]
  simp

/-- C10. Every outbound packet produced by the `finalize()` of a
specialized frame from a present payload is well-formed: `from_type` sets
`data_len` to the payload size plus 2 (9 or 12 for the defined payload
layouts), writes the computed checksum into the last byte, and the
resulting packet passes `is_checksum_valid`
(base_frame.h `CLASS_DEFAULT_IMPL::finalize`, Schema.h
`packet_data::from_type`, `set_checksum`, `is_checksum_valid`).
-/
theorem from_type_wellformed (p : packet_data) (payload : List Nat)
    (hp : p.data.length = 12) (hlen : payload.length = 7 ∨ payload.length = 10) :
    (p.from_type payload).data_len = payload.length + 2 ∧
    (p.from_type payload).byteAt (p.from_type payload).get_checksum_pos =
      (p.from_type payload).calculate_checksum ∧
    (p.from_type payload).is_checksum_valid = true := by
  have hq1len : (p.data.take 1 ++ payload ++ p.data.drop (1 + payload.length)).length = 12 := by
    rcases hlen with h | h <;> simp [hp, h]
  have hq1dl : (1 : Nat) + payload.length + 1 = 9 ∨ (1 : Nat) + payload.length + 1 = 12 := by
    rcases hlen with h | h <;> [left; right] <;> rw [h]
  have hmain := set_checksum_sound
    ⟨p.data.take 1 ++ payload ++ p.data.drop (1 + payload.length), 1 + payload.length + 1⟩
    hq1len hq1dl
  refine ⟨?_, hmain.2.1, hmain.2.2⟩
  rw [show (p.from_type payload).data_len =
      (packet_data.set_checksum
        ⟨p.data.take 1 ++ payload ++ p.data.drop (1 + payload.length),
         1 + payload.length + 1⟩).data_len from rfl, hmain.1]
  show 1 + payload.length + 1 = payload.length + 2
  omega

/-- Witness for `from_type_wellformed`: finalizing the observed `conf_1`
payload of the 0x81 frame into an outbound packet yields a valid 12-byte
frame. -/
theorem from_type_wellformed_witness :
    (conf1Packet.from_type
      (conf_1_to_bytes ⟨0xB1, 0x17, 0x06, 0x77, 0x78, 0x3D, 0x3D, 0x3D, 0x3D, 0x00⟩)).data_len =
      12 ∧
    (conf1Packet.from_type
      (conf_1_to_bytes
        ⟨0xB1, 0x17, 0x06, 0x77, 0x78, 0x3D, 0x3D, 0x3D, 0x3D, 0x00⟩)).is_checksum_valid =
      true := by
  have h := from_type_wellformed conf1Packet
    (conf_1_to_bytes ⟨0xB1, 0x17, 0x06, 0x77, 0x78, 0x3D, 0x3D, 0x3D, 0x3D, 0x00⟩)
    (by decide) (Or.inr (by decide))
  exact ⟨h.1, h.2.2⟩

end Hwp
